import Mathlib

/-!
Verification development for the 10-K projection system
(`src/analysis/quantitative_model.py` and
`src/analysis/src/reports/report_generator.py`).

Python floating-point numbers are idealised as rationals (`ℚ`); Python
dictionaries are modelled as association lists with first-match lookup
(Python dictionaries have unique keys, so the two views agree).  The
transcendental CAGR value `((end/start)**(1/years) - 1) * 100` is kept
symbolically in the result (a `CagrExpr` recording the operands) and given
its real-number denotation by `CagrExpr.value`.
-/

namespace TenK

/-- Model of a Python scalar value that can appear in the baseline or
assumptions dictionaries: an int, a float, a string, or `None`. -/
inductive PyVal where
  | int : ℤ → PyVal
  | float : ℚ → PyVal
  | str : String → PyVal
  | pynone : PyVal
deriving DecidableEq, Repr

/-- A Python `Dict[str, Any]` holding scalars, as an association list. -/
abbrev Dict := List (String × PyVal)

/-- Python `dict.get`: first-match lookup in an association list. -/
def dictGet {α : Type} : List (String × α) → String → Option α
  | [], _ => Option.none
  | (k, v) :: rest, key => if k = key then some v else dictGet rest key

/-- Python `isinstance(v, (int, float))`. -/
def PyVal.isNumeric : PyVal → Bool
  | .int _ => true
  | .float _ => true
  | _ => false

/-- Python `float(v)` on a numeric value (0 on the non-numeric
constructors, which the source never converts). -/
def PyVal.toQ : PyVal → ℚ
  | .int n => (n : ℚ)
  | .float x => x
  | _ => 0

/-- Embedding of `_safe_get_numeric` (quantitative_model.py, lines 12-21):
missing key or stored `None` gives the default; a present non-numeric
value gives the default; a numeric value is converted with `float`. -/
def _safe_get_numeric (data : Dict) (key : String) (default : ℚ) : ℚ :=
  match dictGet data key with
  | Option.none => default
  | some .pynone => default
  | some (.int n) => (n : ℚ)
  | some (.float x) => x
  | some (.str _) => default

/-- Whether `_safe_get_numeric` logs the non-numeric-value warning on this
dictionary and key: the `logger.warning` call on line 19 runs exactly when
the key is present, its value is not `None` (the `val is None` branch on
lines 15-17 returns first, without a warning), and the value is not an int
or float. -/
def _safe_get_numeric_warned (data : Dict) (key : String) : Bool :=
  match dictGet data key with
  | Option.none => false
  | some .pynone => false
  | some v => ! v.isNumeric

/-- The operands of a successfully-guarded CAGR computation, recorded
symbolically: the denotation `CagrExpr.value` is the float expression
`((end_val / start_val) ** (1.0 / num_years) - 1) * 100.0` of line 53. -/
structure CagrExpr where
  startVal : ℚ
  endVal : ℚ
  numYears : ℤ
deriving DecidableEq, Repr

/-- Real-number denotation of the CAGR formula on line 53 of
quantitative_model.py. -/
noncomputable def CagrExpr.value (e : CagrExpr) : ℝ :=
  (((e.endVal : ℝ) / (e.startVal : ℝ)) ^ ((1 : ℝ) / (e.numYears : ℝ)) - 1) * 100

/-- Result of `_calculate_cagr`: either a number (the value of the
recorded expression) or one of the N/A reason strings. -/
inductive CagrResult where
  | ok : CagrExpr → CagrResult
  | na : String → CagrResult
deriving DecidableEq, Repr

/-- Embedding of `_calculate_cagr` (quantitative_model.py, lines 23-61).
The guards are checked in source order: non-int or non-positive years,
then non-numeric operands, then zero base, then negative operands.  After
the guards, `start > 0` and `end ≥ 0`, so the power computation in the
`try` block is defined, real, and raises nothing: the function returns the
number given by the recorded expression. -/
def _calculate_cagr (start_val end_val num_years : PyVal) : CagrResult :=
  match num_years with
  | .int y =>
    if y ≤ 0 then .na "N/A (Invalid Years)"
    else if ! (start_val.isNumeric && end_val.isNumeric) then .na "N/A (Invalid Values)"
    else if start_val.toQ = 0 then .na "N/A (Zero Base)"
    else if start_val.toQ < 0 ∨ end_val.toQ < 0 then .na "N/A (Negative Value)"
    else .ok ⟨start_val.toQ, end_val.toQ, y⟩
  | _ => .na "N/A (Invalid Years)"

/-- One entry of a per-horizon projection dictionary: a float, or a CAGR
result. -/
inductive ProjEntry where
  | num : ℚ → ProjEntry
  | cagr : CagrResult → ProjEntry
deriving DecidableEq, Repr

/-- The per-horizon projections dictionary built by the loop body of
`calculate_10k_projections` (empty when the horizon is missing from the
assumptions). -/
abbrev ProjectionResult := List (String × ProjEntry)

/-- A value of the bundle dictionary returned by
`calculate_10k_projections`: the baseline dictionary under `baseline`,
and a projections dictionary under each horizon key. -/
inductive BundleVal where
  | dict : Dict → BundleVal
  | proj : ProjectionResult → BundleVal
deriving DecidableEq, Repr

/-- The engine's result dictionary. -/
abbrev ProjectionBundle := List (String × BundleVal)

/-- The fixed horizon-to-years lookup
`{'one_year': 1, 'five_year': 5, 'ten_year': 10}.get(timeframe, 0)`
on line 112. -/
def yearsFor (timeframe : String) : ℤ :=
  if timeframe = "one_year" then 1
  else if timeframe = "five_year" then 5
  else if timeframe = "ten_year" then 10
  else 0

/-- Python `min(a, b)` on two floats: the smaller argument (the first one
on ties, which for numbers is the same value).  Written with `if` so that
concrete instances reduce; it agrees with the order-theoretic `min`. -/
def pymin (a b : ℚ) : ℚ := if b < a then b else a

/-- Python `max(a, b)` on two floats: the larger argument.  Agrees with
the order-theoretic `max`. -/
def pymax (a b : ℚ) : ℚ := if a < b then b else a

/-- Embedding of the loop body of `calculate_10k_projections`
(quantitative_model.py, lines 110-163) for one timeframe whose
assumptions are present, given the extracted baseline figures.  Entries
appear in the source's insertion order. -/
def projectTimeframe (base_revenue base_ebitda base_ebitda_margin base_rnd_spend
    base_net_income base_net_margin : ℚ) (assumptions : Dict) (timeframe : String) :
    ProjectionResult :=
  let years : ℤ := yearsFor timeframe
  let proj_rev : ℚ :=
    if timeframe = "one_year" then
      base_revenue * (1 + _safe_get_numeric assumptions "revenue_growth_pct" 0 / 100)
    else
      base_revenue * (1 + _safe_get_numeric assumptions "cumulative_revenue_growth_pct" 0 / 100)
  let ebitda_margin_improvement_pp := _safe_get_numeric assumptions "ebitda_margin_improvement" 0
  let proj_ebitda_margin := pymax 0 (pymin 1 (base_ebitda_margin + ebitda_margin_improvement_pp / 100))
  let proj_ebitda := proj_rev * proj_ebitda_margin
  let rnd_increase_pct := _safe_get_numeric assumptions "r_and_d_increase" 0
  let proj_rnd := base_rnd_spend * (1 + rnd_increase_pct / 100)
  let net_margin_improvement_pp := ebitda_margin_improvement_pp / 2
  let proj_net_margin := pymax 0 (pymin 1 (base_net_margin + net_margin_improvement_pp / 100))
  let proj_net_income := proj_rev * proj_net_margin
  [("projected_revenue", .num proj_rev),
   ("revenue_cagr", .cagr (_calculate_cagr (.float base_revenue) (.float proj_rev) (.int years))),
   ("projected_ebitda", .num proj_ebitda),
   ("projected_ebitda_margin", .num proj_ebitda_margin),
   ("ebitda_cagr", .cagr (_calculate_cagr (.float base_ebitda) (.float proj_ebitda) (.int years))),
   ("projected_r_and_d_spend", .num proj_rnd),
   ("rnd_cagr", .cagr (_calculate_cagr (.float base_rnd_spend) (.float proj_rnd) (.int years))),
   ("projected_net_income", .num proj_net_income),
   ("projected_net_margin", .num proj_net_margin),
   ("net_income_cagr", .cagr (_calculate_cagr (.float base_net_income) (.float proj_net_income) (.int years)))]

/-- Embedding of `calculate_10k_projections` (quantitative_model.py,
lines 64-166).  The result dictionary holds a copy of the baseline under
`baseline` and, for each of the three horizons, the loop body's result
(an empty dictionary when the horizon is missing from
`growth_assumptions`). -/
def calculate_10k_projections (baseline_data : Dict)
    (growth_assumptions : List (String × Dict)) : ProjectionBundle :=
  let base_revenue := _safe_get_numeric baseline_data "revenue" 0
  let base_ebitda := _safe_get_numeric baseline_data "ebitda" 0
  let base_ebitda_margin := _safe_get_numeric baseline_data "ebitda_margin" 0
  let base_rnd_spend := _safe_get_numeric baseline_data "r_and_d_spend" 0
  let base_net_income := _safe_get_numeric baseline_data "net_income" 0
  let base_net_margin := if base_revenue ≠ 0 then base_net_income / base_revenue else 0
  let timeframeResult := fun (timeframe : String) =>
    match dictGet growth_assumptions timeframe with
    | Option.none => ([] : ProjectionResult)
    | some assumptions =>
        projectTimeframe base_revenue base_ebitda base_ebitda_margin base_rnd_spend
          base_net_income base_net_margin assumptions timeframe
  [("baseline", .dict baseline_data),
   ("one_year", .proj (timeframeResult "one_year")),
   ("five_year", .proj (timeframeResult "five_year")),
   ("ten_year", .proj (timeframeResult "ten_year"))]

/-- The projections dictionary stored in a bundle under a horizon key
(`results[timeframe]`), read back out; empty when absent or not a
projections dictionary. -/
def bundleHorizon (bundle : ProjectionBundle) (timeframe : String) : ProjectionResult :=
  match dictGet bundle timeframe with
  | some (.proj p) => p
  | _ => []

/-- Python truthiness of a bundle value (`not projections`): an empty
dictionary is falsy. -/
def bundleValEmpty : BundleVal → Bool
  | .dict d => d.isEmpty
  | .proj p => p.isEmpty

/-- Embedding of the data-dependent control flow of
`ReportGenerator._generate_single_10k_report` (report_generator.py,
lines 201-239): the horizon's projections are read with
`projection_data.get(timeframe, {})`; an empty projections dictionary
raises `ReportGenerationError` (line 212, before the rendering `try`
block); otherwise the renderer (an external collaborator, modelled as
succeeding) writes and returns the horizon-qualified output path of
line 203. -/
def _generate_single_10k_report (output_dir : String) (projection_data : ProjectionBundle)
    (timeframe : String) : Except String String :=
  let projections : BundleVal := (dictGet projection_data timeframe).getD (.dict [])
  if bundleValEmpty projections then
    Except.error "ReportGenerationError"
  else
    Except.ok (output_dir ++ "/BFC_10K_" ++ timeframe ++ "_Projection_v3.pdf")

/-- Python `v.startswith("FAILED:")`, written over the character lists of
the two strings so that concrete instances reduce. -/
def strStartsWith (s pre : String) : Bool := pre.data.isPrefixOf s.data

/-- Python `f"FAILED: \x7btype(e).__name__\x7d"` conversion of a task
outcome (report_generator.py, lines 189-192): a successful future yields
its path, a raising future yields the failure marker. -/
def buildOutcomeStr : Except String String → String
  | .ok p => p
  | .error n => "FAILED: " ++ n

/-- The task keys submitted by `generate_10k_reports` (report_generator.py,
lines 172-176): the horizons, in fixed order, that are present in
`projection_data`. -/
def reportTasks (projection_data : ProjectionBundle) : List String :=
  (["one_year", "five_year", "ten_year"]).filter
    (fun t => (dictGet projection_data t).isSome)

/-- The `report_paths` mapping accumulated by `generate_10k_reports`
(report_generator.py, lines 181-192): one outcome string per submitted
task, success path or failure marker. -/
def report_paths_for (output_dir : String) (projection_data : ProjectionBundle) :
    List (String × String) :=
  (reportTasks projection_data).map
    (fun t => (t, buildOutcomeStr (_generate_single_10k_report output_dir projection_data t)))

/-- Embedding of `ReportGenerator.generate_10k_reports`
(report_generator.py, lines 168-198): with no `baseline` key or no
horizon key present it logs an error and returns the empty mapping;
otherwise it runs every submitted task, collects outcome strings, and
returns only the entries not marked `FAILED:`. -/
def generate_10k_reports (output_dir : String) (projection_data : ProjectionBundle) :
    List (String × String) :=
  if (dictGet projection_data "baseline").isNone ∨ reportTasks projection_data = [] then []
  else
    (report_paths_for output_dir projection_data).filter
      (fun kv => ! strStartsWith kv.snd "FAILED:")

/-- The `failed_reports` mapping computed (and logged) by
`generate_10k_reports` on lines 195-197: the entries of `report_paths`
that carry a `FAILED:` marker. -/
def failed_reports_for (output_dir : String) (projection_data : ProjectionBundle) :
    List (String × String) :=
  if (dictGet projection_data "baseline").isNone ∨ reportTasks projection_data = [] then []
  else
    (report_paths_for output_dir projection_data).filter
      (fun kv => strStartsWith kv.snd "FAILED:")

/-- The concrete baseline of the spec's test scenario. -/
def scenarioBaseline : Dict :=
  [("revenue", .int 4000), ("ebitda", .int 800), ("ebitda_margin", .float 0.20),
   ("net_income", .int 400), ("r_and_d_spend", .int 200)]

/-- The concrete one-year assumptions of the spec's test scenario. -/
def scenarioOneYearAssumptions : Dict :=
  [("revenue_growth_pct", .int 5), ("ebitda_margin_improvement", .float 0.5),
   ("r_and_d_increase", .float 10.0)]

/-- The growth-assumptions mapping of the spec's test scenario. -/
def scenarioAssumptions : List (String × Dict) :=
  [("one_year", scenarioOneYearAssumptions)]

lemma pymin_eq_min (a b : ℚ) : pymin a b = min a b := by
  unfold pymin
  rcases lt_or_ge b a with h | h
  · rw [if_pos h, min_eq_right h.le]
  · rw [if_neg (not_lt.mpr h), min_eq_left h]

lemma pymax_eq_max (a b : ℚ) : pymax a b = max a b := by
  unfold pymax
  rcases lt_or_ge a b with h | h
  · rw [if_pos h, max_eq_right h.le]
  · rw [if_neg (not_lt.mpr h), max_eq_left h]

lemma clamp_nonneg (x : ℚ) : 0 ≤ pymax 0 (pymin 1 x) := by
  rw [pymax_eq_max]
  exact le_max_left 0 _

lemma clamp_le_one (x : ℚ) : pymax 0 (pymin 1 x) ≤ 1 := by
  rw [pymax_eq_max, pymin_eq_min]
  exact max_le (by norm_num) (min_le_left 1 x)

/-- The horizon entry of the engine's bundle, when the horizon's
assumptions are present, is the loop body's result on the extracted
baseline figures. -/
lemma bundleHorizon_some (b : Dict) (ga : List (String × Dict)) (t : String) (a : Dict)
    (ht : t = "one_year" ∨ t = "five_year" ∨ t = "ten_year")
    (h : dictGet ga t = some a) :
    bundleHorizon (calculate_10k_projections b ga) t =
      projectTimeframe (_safe_get_numeric b "revenue" 0) (_safe_get_numeric b "ebitda" 0)
        (_safe_get_numeric b "ebitda_margin" 0) (_safe_get_numeric b "r_and_d_spend" 0)
        (_safe_get_numeric b "net_income" 0)
        (if _safe_get_numeric b "revenue" 0 ≠ 0 then
          _safe_get_numeric b "net_income" 0 / _safe_get_numeric b "revenue" 0 else 0)
        a t := by
  rcases ht with rfl | rfl | rfl <;>
    simp [calculate_10k_projections, bundleHorizon, dictGet, h]

/-- The horizon entry of the engine's bundle, when the horizon's
assumptions are missing, is the empty dictionary. -/
lemma bundleHorizon_missing (b : Dict) (ga : List (String × Dict)) (t : String)
    (ht : t = "one_year" ∨ t = "five_year" ∨ t = "ten_year")
    (h : dictGet ga t = Option.none) :
    bundleHorizon (calculate_10k_projections b ga) t = [] := by
  rcases ht with rfl | rfl | rfl <;>
    simp [calculate_10k_projections, bundleHorizon, dictGet, h]

/-- C1: on the spec's concrete scenario
(baseline revenue 4000, ebitda 800, ebitda margin 0.20, net income 400,
R&D 200; one-year growth 5, margin improvement 0.5 p.p., R&D increase
10.0) the one-year projection is revenue 4200, EBITDA margin 0.205,
EBITDA 861.0, R&D 220, net margin 0.1025 and net income 430.5; and in
general the engine adds exactly half the EBITDA-margin improvement (in
percentage points) to the baseline net margin `net_income / revenue`
(0 when baseline revenue is 0), clamps, and multiplies projected revenue
by the clamped net margin to get projected net income. -/
theorem ten_k_scenario_and_net_margin_policy :
    (dictGet (bundleHorizon (calculate_10k_projections scenarioBaseline scenarioAssumptions)
        "one_year") "projected_revenue" = some (.num 4200) ∧
     dictGet (bundleHorizon (calculate_10k_projections scenarioBaseline scenarioAssumptions)
        "one_year") "projected_ebitda_margin" = some (.num 0.205) ∧
     dictGet (bundleHorizon (calculate_10k_projections scenarioBaseline scenarioAssumptions)
        "one_year") "projected_ebitda" = some (.num 861) ∧
     dictGet (bundleHorizon (calculate_10k_projections scenarioBaseline scenarioAssumptions)
        "one_year") "projected_r_and_d_spend" = some (.num 220) ∧
     dictGet (bundleHorizon (calculate_10k_projections scenarioBaseline scenarioAssumptions)
        "one_year") "projected_net_margin" = some (.num 0.1025) ∧
     dictGet (bundleHorizon (calculate_10k_projections scenarioBaseline scenarioAssumptions)
        "one_year") "projected_net_income" = some (.num 430.5)) ∧
    (∀ (baseline_data : Dict) (growth_assumptions : List (String × Dict)) (t : String) (a : Dict),
      (t = "one_year" ∨ t = "five_year" ∨ t = "ten_year") →
      dictGet growth_assumptions t = some a →
      ∃ proj_rev : ℚ,
        dictGet (bundleHorizon (calculate_10k_projections baseline_data growth_assumptions) t)
          "projected_revenue" = some (.num proj_rev) ∧
        dictGet (bundleHorizon (calculate_10k_projections baseline_data growth_assumptions) t)
          "projected_net_margin" =
          some (.num (pymax 0 (pymin 1
            ((if _safe_get_numeric baseline_data "revenue" 0 ≠ 0 then
                _safe_get_numeric baseline_data "net_income" 0 /
                  _safe_get_numeric baseline_data "revenue" 0
              else 0) +
             _safe_get_numeric a "ebitda_margin_improvement" 0 / 2 / 100)))) ∧
        dictGet (bundleHorizon (calculate_10k_projections baseline_data growth_assumptions) t)
          "projected_net_income" =
          some (.num (proj_rev * pymax 0 (pymin 1
            ((if _safe_get_numeric baseline_data "revenue" 0 ≠ 0 then
                _safe_get_numeric baseline_data "net_income" 0 /
                  _safe_get_numeric baseline_data "revenue" 0
              else 0) +
             _safe_get_numeric a "ebitda_margin_improvement" 0 / 2 / 100))))) := by
  constructor
  · refine ⟨?_, ?_, ?_, ?_, ?_, ?_⟩ <;>
    · simp only [calculate_10k_projections, projectTimeframe, bundleHorizon, dictGet,
        _safe_get_numeric, scenarioBaseline, scenarioAssumptions, scenarioOneYearAssumptions,
        pymin, pymax, yearsFor]
      simp
      norm_num
  · intro baseline_data growth_assumptions t a ht h
    rw [bundleHorizon_some baseline_data growth_assumptions t a ht h]
    rcases ht with rfl | rfl | rfl <;> exact ⟨_, rfl, rfl, rfl⟩

/-- Witness for the general net-margin clause of C1, instantiated on the
concrete scenario. -/
theorem ten_k_scenario_and_net_margin_policy_witness :
    ∃ proj_rev : ℚ,
      dictGet (bundleHorizon (calculate_10k_projections scenarioBaseline scenarioAssumptions)
        "one_year") "projected_revenue" = some (.num proj_rev) ∧
      dictGet (bundleHorizon (calculate_10k_projections scenarioBaseline scenarioAssumptions)
        "one_year") "projected_net_margin" =
        some (.num (pymax 0 (pymin 1
          ((if _safe_get_numeric scenarioBaseline "revenue" 0 ≠ 0 then
              _safe_get_numeric scenarioBaseline "net_income" 0 /
                _safe_get_numeric scenarioBaseline "revenue" 0
            else 0) +
           _safe_get_numeric scenarioOneYearAssumptions "ebitda_margin_improvement" 0
             / 2 / 100)))) ∧
      dictGet (bundleHorizon (calculate_10k_projections scenarioBaseline scenarioAssumptions)
        "one_year") "projected_net_income" =
        some (.num (proj_rev * pymax 0 (pymin 1
          ((if _safe_get_numeric scenarioBaseline "revenue" 0 ≠ 0 then
              _safe_get_numeric scenarioBaseline "net_income" 0 /
                _safe_get_numeric scenarioBaseline "revenue" 0
            else 0) +
           _safe_get_numeric scenarioOneYearAssumptions "ebitda_margin_improvement" 0
             / 2 / 100)))) :=
  ten_k_scenario_and_net_margin_policy.2 scenarioBaseline scenarioAssumptions "one_year"
    scenarioOneYearAssumptions (Or.inl rfl) rfl

/-- C2: for every baseline and growth-assumptions mapping containing the
horizon, projected revenue for `one_year` is
`baseline_revenue * (1 + revenue_growth_pct / 100)`, and for `five_year`
and `ten_year` it is
`baseline_revenue * (1 + cumulative_revenue_growth_pct / 100)` — the
cumulative percentage is the total multiplier applied directly to the
baseline, not compounded year-over-year, and the multi-year horizons read
the `cumulative_revenue_growth_pct` key. -/
theorem revenue_projection_rule :
    ∀ (baseline_data : Dict) (growth_assumptions : List (String × Dict)) (a : Dict),
      (dictGet growth_assumptions "one_year" = some a →
        dictGet (bundleHorizon (calculate_10k_projections baseline_data growth_assumptions)
          "one_year") "projected_revenue" =
          some (.num (_safe_get_numeric baseline_data "revenue" 0 *
            (1 + _safe_get_numeric a "revenue_growth_pct" 0 / 100)))) ∧
      (dictGet growth_assumptions "five_year" = some a →
        dictGet (bundleHorizon (calculate_10k_projections baseline_data growth_assumptions)
          "five_year") "projected_revenue" =
          some (.num (_safe_get_numeric baseline_data "revenue" 0 *
            (1 + _safe_get_numeric a "cumulative_revenue_growth_pct" 0 / 100)))) ∧
      (dictGet growth_assumptions "ten_year" = some a →
        dictGet (bundleHorizon (calculate_10k_projections baseline_data growth_assumptions)
          "ten_year") "projected_revenue" =
          some (.num (_safe_get_numeric baseline_data "revenue" 0 *
            (1 + _safe_get_numeric a "cumulative_revenue_growth_pct" 0 / 100)))) := by
  intro baseline_data growth_assumptions a
  refine ⟨fun h => ?_, fun h => ?_, fun h => ?_⟩
  · rw [bundleHorizon_some baseline_data growth_assumptions "one_year" a (Or.inl rfl) h]
    exact rfl
  · rw [bundleHorizon_some baseline_data growth_assumptions "five_year" a
      (Or.inr (Or.inl rfl)) h]
    exact rfl
  · rw [bundleHorizon_some baseline_data growth_assumptions "ten_year" a
      (Or.inr (Or.inr rfl)) h]
    exact rfl

/-- Witness for C2 on the concrete scenario's one-year horizon. -/
theorem revenue_projection_rule_witness :
    dictGet (bundleHorizon (calculate_10k_projections scenarioBaseline scenarioAssumptions)
      "one_year") "projected_revenue" =
      some (.num (_safe_get_numeric scenarioBaseline "revenue" 0 *
        (1 + _safe_get_numeric scenarioOneYearAssumptions "revenue_growth_pct" 0 / 100))) :=
  (revenue_projection_rule scenarioBaseline scenarioAssumptions
    scenarioOneYearAssumptions).1 rfl

/-- C3: in every non-empty per-horizon projection dictionary produced by
the engine, `projected_ebitda_margin` and `projected_net_margin` lie in
the closed interval `[0, 1]`, and `projected_ebitda` equals
`projected_revenue` times the clamped `projected_ebitda_margin`. -/
theorem margin_clamp_invariant :
    ∀ (baseline_data : Dict) (growth_assumptions : List (String × Dict)) (t : String),
      (t = "one_year" ∨ t = "five_year" ∨ t = "ten_year") →
      bundleHorizon (calculate_10k_projections baseline_data growth_assumptions) t ≠ [] →
      ∃ (proj_rev m nm : ℚ),
        dictGet (bundleHorizon (calculate_10k_projections baseline_data growth_assumptions) t)
          "projected_revenue" = some (.num proj_rev) ∧
        dictGet (bundleHorizon (calculate_10k_projections baseline_data growth_assumptions) t)
          "projected_ebitda_margin" = some (.num m) ∧
        dictGet (bundleHorizon (calculate_10k_projections baseline_data growth_assumptions) t)
          "projected_net_margin" = some (.num nm) ∧
        0 ≤ m ∧ m ≤ 1 ∧ 0 ≤ nm ∧ nm ≤ 1 ∧
        dictGet (bundleHorizon (calculate_10k_projections baseline_data growth_assumptions) t)
          "projected_ebitda" = some (.num (proj_rev * m)) := by
  intro baseline_data growth_assumptions t ht hne
  cases hga : dictGet growth_assumptions t with
  | none => exact absurd (bundleHorizon_missing baseline_data growth_assumptions t ht hga) hne
  | some a =>
    rw [bundleHorizon_some baseline_data growth_assumptions t a ht hga]
    exact ⟨_, _, _, rfl, rfl, rfl, clamp_nonneg _, clamp_le_one _,
      clamp_nonneg _, clamp_le_one _, rfl⟩

/-- Witness for C3 on the concrete scenario's one-year horizon. -/
theorem margin_clamp_invariant_witness :
    ∃ (proj_rev m nm : ℚ),
      dictGet (bundleHorizon (calculate_10k_projections scenarioBaseline scenarioAssumptions)
        "one_year") "projected_revenue" = some (.num proj_rev) ∧
      dictGet (bundleHorizon (calculate_10k_projections scenarioBaseline scenarioAssumptions)
        "one_year") "projected_ebitda_margin" = some (.num m) ∧
      dictGet (bundleHorizon (calculate_10k_projections scenarioBaseline scenarioAssumptions)
        "one_year") "projected_net_margin" = some (.num nm) ∧
      0 ≤ m ∧ m ≤ 1 ∧ 0 ≤ nm ∧ nm ≤ 1 ∧
      dictGet (bundleHorizon (calculate_10k_projections scenarioBaseline scenarioAssumptions)
        "one_year") "projected_ebitda" = some (.num (proj_rev * m)) :=
  margin_clamp_invariant scenarioBaseline scenarioAssumptions "one_year" (Or.inl rfl)
    (by decide)

/-- C4: for numeric `start > 0`, `end > 0` and an integer `years > 0`,
the CAGR calculator returns a number, not a reason string: the recorded
expression on these operands, whose value is exactly
`((end / start) ^ (1 / years) - 1) * 100`. -/
theorem cagr_positive_inputs (s e : ℚ) (y : ℤ) (hs : 0 < s) (he : 0 < e) (hy : 0 < y) :
    _calculate_cagr (.float s) (.float e) (.int y) = .ok ⟨s, e, y⟩ ∧
    CagrExpr.value ⟨s, e, y⟩ =
      (((e : ℝ) / (s : ℝ)) ^ ((1 : ℝ) / (y : ℝ)) - 1) * 100 := by
  refine ⟨?_, rfl⟩
  simp [_calculate_cagr, PyVal.isNumeric, PyVal.toQ, not_le.mpr hy, hs.ne', hs.not_lt,
    he.not_lt]

/-- Witness for C4 at start 100, end 200, years 4. -/
theorem cagr_positive_inputs_witness :
    _calculate_cagr (.float 100) (.float 200) (.int 4) = .ok ⟨100, 200, 4⟩ ∧
    CagrExpr.value ⟨100, 200, 4⟩ =
      ((((200 : ℚ) : ℝ) / ((100 : ℚ) : ℝ)) ^ ((1 : ℝ) / (((4 : ℤ)) : ℝ)) - 1) * 100 :=
  cagr_positive_inputs 100 200 4 (by decide) (by decide) (by decide)

/-- C5: the CAGR calculator is total — every input yields either a number
or a typed reason — and the reasons follow the source's ordered
first-match-wins policy: a non-integer or non-positive years value gives
the invalid-years reason for any operands; otherwise a non-numeric
operand gives the invalid-values reason; otherwise a zero start gives the
zero-base reason for any end; otherwise a negative start or end gives the
negative-value reason. -/
theorem cagr_error_taxonomy :
    (∀ s e : PyVal, ∀ y : ℤ, y ≤ 0 →
      _calculate_cagr s e (.int y) = .na "N/A (Invalid Years)") ∧
    (∀ s e ny : PyVal, (∀ y : ℤ, ny ≠ .int y) →
      _calculate_cagr s e ny = .na "N/A (Invalid Years)") ∧
    (∀ s e : PyVal, ∀ y : ℤ, 0 < y → (s.isNumeric = false ∨ e.isNumeric = false) →
      _calculate_cagr s e (.int y) = .na "N/A (Invalid Values)") ∧
    (∀ s e : PyVal, ∀ y : ℤ, 0 < y → s.isNumeric = true → e.isNumeric = true →
      s.toQ = 0 → _calculate_cagr s e (.int y) = .na "N/A (Zero Base)") ∧
    (∀ s e : PyVal, ∀ y : ℤ, 0 < y → s.isNumeric = true → e.isNumeric = true →
      s.toQ ≠ 0 → (s.toQ < 0 ∨ e.toQ < 0) →
      _calculate_cagr s e (.int y) = .na "N/A (Negative Value)") ∧
    (∀ s e ny : PyVal,
      (∃ ex, _calculate_cagr s e ny = .ok ex) ∨ (∃ r, _calculate_cagr s e ny = .na r)) := by
  refine ⟨?_, ?_, ?_, ?_, ?_, ?_⟩
  · intro s e y hy
    simp [_calculate_cagr, hy]
  · intro s e ny hny
    cases ny with
    | int y => exact absurd rfl (hny y)
    | float x => rfl
    | str v => rfl
    | pynone => rfl
  · intro s e y hy h
    rcases h with h | h <;> simp [_calculate_cagr, not_le.mpr hy, h]
  · intro s e y hy hs he h0
    simp [_calculate_cagr, not_le.mpr hy, hs, he, h0]
  · intro s e y hy hs he h0 hneg
    simp [_calculate_cagr, not_le.mpr hy, hs, he, h0, hneg]
  · intro s e ny
    cases h : _calculate_cagr s e ny with
    | ok ex => exact Or.inl ⟨ex, rfl⟩
    | na r => exact Or.inr ⟨r, rfl⟩

/-- Witness for C5, exercising each reason branch at a concrete input —
in particular start `-50` against positive end `100` gives the
negative-value reason. -/
theorem cagr_error_taxonomy_witness :
    _calculate_cagr (.float 1) (.float 2) (.int 0) = .na "N/A (Invalid Years)" ∧
    _calculate_cagr (.float 1) (.float 2) (.float 2) = .na "N/A (Invalid Years)" ∧
    _calculate_cagr (.str "x") (.float 2) (.int 3) = .na "N/A (Invalid Values)" ∧
    _calculate_cagr (.float 0) (.float 2) (.int 3) = .na "N/A (Zero Base)" ∧
    _calculate_cagr (.float (-50)) (.float 100) (.int 3) = .na "N/A (Negative Value)" :=
  ⟨cagr_error_taxonomy.1 _ _ 0 (by decide),
   cagr_error_taxonomy.2.1 _ _ _ (fun y h => PyVal.noConfusion h),
   cagr_error_taxonomy.2.2.1 _ _ 3 (by decide) (Or.inl rfl),
   cagr_error_taxonomy.2.2.2.1 _ _ 3 (by decide) rfl rfl rfl,
   cagr_error_taxonomy.2.2.2.2.1 _ _ 3 (by decide) rfl rfl (by decide)
     (Or.inl (by decide))⟩

/-- Characterisation of the `report_paths` entries: one per submitted
task, carrying that task's outcome string. -/
lemma mem_report_paths_iff (od : String) (pd : ProjectionBundle) (t p : String) :
    (t, p) ∈ report_paths_for od pd ↔
      t ∈ reportTasks pd ∧ p = buildOutcomeStr (_generate_single_10k_report od pd t) := by
  simp only [report_paths_for, List.mem_map, Prod.mk.injEq]
  constructor
  · rintro ⟨x, hx, rfl, rfl⟩
    exact ⟨hx, rfl⟩
  · rintro ⟨ht, rfl⟩
    exact ⟨t, ht, rfl, rfl⟩

/-- Characterisation of the mapping returned by the orchestrator: the
precondition holds and the entry is a non-`FAILED:` `report_paths`
entry. -/
lemma mem_generate_iff (od : String) (pd : ProjectionBundle) (t p : String) :
    (t, p) ∈ generate_10k_reports od pd ↔
      ¬((dictGet pd "baseline").isNone ∨ reportTasks pd = []) ∧
      (t, p) ∈ report_paths_for od pd ∧ strStartsWith p "FAILED:" = false := by
  by_cases hc : (dictGet pd "baseline").isNone ∨ reportTasks pd = []
  · simp [generate_10k_reports, hc]
  · simp [generate_10k_reports, hc, List.mem_filter]

/-- A single report build either fails with `ReportGenerationError` (on
empty projection data) or succeeds with the horizon-qualified path. -/
lemma single_report_cases (od : String) (pd : ProjectionBundle) (t : String) :
    _generate_single_10k_report od pd t = Except.error "ReportGenerationError" ∨
    _generate_single_10k_report od pd t =
      Except.ok (od ++ "/BFC_10K_" ++ t ++ "_Projection_v3.pdf") := by
  cases hb : bundleValEmpty ((dictGet pd t).getD (BundleVal.dict []))
  · exact Or.inr (by simp [_generate_single_10k_report, hb])
  · exact Or.inl (by simp [_generate_single_10k_report, hb])

/-- C6: when the growth assumptions omit `ten_year` but contain the other
two horizons, the engine still returns a bundle in which `ten_year` maps
to an empty result while `one_year` and `five_year` are non-empty; the
orchestrator's `ten_year` build then raises and is recorded as a
`FAILED: ReportGenerationError` marker among the logged failures, and
`ten_year` does not appear in the returned success mapping — it is a
reported failure, not a silent skip. -/
theorem missing_horizon_policy (baseline_data : Dict)
    (growth_assumptions : List (String × Dict)) (a1 a5 : Dict) (output_dir : String)
    (h1 : dictGet growth_assumptions "one_year" = some a1)
    (h5 : dictGet growth_assumptions "five_year" = some a5)
    (h10 : dictGet growth_assumptions "ten_year" = Option.none) :
    dictGet (calculate_10k_projections baseline_data growth_assumptions) "ten_year" =
      some (.proj []) ∧
    bundleHorizon (calculate_10k_projections baseline_data growth_assumptions)
      "one_year" ≠ [] ∧
    bundleHorizon (calculate_10k_projections baseline_data growth_assumptions)
      "five_year" ≠ [] ∧
    _generate_single_10k_report output_dir
      (calculate_10k_projections baseline_data growth_assumptions) "ten_year" =
      Except.error "ReportGenerationError" ∧
    ("ten_year", "FAILED: ReportGenerationError") ∈
      failed_reports_for output_dir
        (calculate_10k_projections baseline_data growth_assumptions) ∧
    ∀ p, ("ten_year", p) ∉
      generate_10k_reports output_dir
        (calculate_10k_projections baseline_data growth_assumptions) := by
  have hbundle :
      dictGet (calculate_10k_projections baseline_data growth_assumptions) "ten_year" =
        some (.proj []) := by
    simp [calculate_10k_projections, dictGet, h10]
  have htasks :
      reportTasks (calculate_10k_projections baseline_data growth_assumptions) =
        ["one_year", "five_year", "ten_year"] := rfl
  have herr :
      _generate_single_10k_report output_dir
        (calculate_10k_projections baseline_data growth_assumptions) "ten_year" =
        Except.error "ReportGenerationError" := by
    simp [_generate_single_10k_report, hbundle, bundleValEmpty]
  have hpre :
      ¬((dictGet (calculate_10k_projections baseline_data growth_assumptions)
          "baseline").isNone = true ∨
        reportTasks (calculate_10k_projections baseline_data growth_assumptions) = []) := by
    rw [htasks]
    simp [calculate_10k_projections, dictGet]
  refine ⟨hbundle, ?_, ?_, herr, ?_, ?_⟩
  · rw [bundleHorizon_some baseline_data growth_assumptions "one_year" a1 (Or.inl rfl) h1]
    exact List.cons_ne_nil _ _
  · rw [bundleHorizon_some baseline_data growth_assumptions "five_year" a5
      (Or.inr (Or.inl rfl)) h5]
    exact List.cons_ne_nil _ _
  · rw [failed_reports_for, if_neg hpre]
    refine List.mem_filter.mpr ⟨?_, by decide⟩
    refine (mem_report_paths_iff output_dir _ "ten_year" _).mpr ⟨?_, ?_⟩
    · rw [htasks]; decide
    · rw [herr]
      decide
  · intro p hp
    obtain ⟨-, hmem, hns⟩ := (mem_generate_iff output_dir _ "ten_year" p).mp hp
    obtain ⟨-, rfl⟩ := (mem_report_paths_iff output_dir _ "ten_year" _).mp hmem
    rw [herr] at hns
    exact absurd hns (by decide)

/-- Witness for C6 on a concrete baseline and a growth-assumptions
mapping holding only the one- and five-year horizons. -/
theorem missing_horizon_policy_witness :
    dictGet (calculate_10k_projections scenarioBaseline
      [("one_year", scenarioOneYearAssumptions), ("five_year", scenarioOneYearAssumptions)])
      "ten_year" = some (.proj []) ∧
    bundleHorizon (calculate_10k_projections scenarioBaseline
      [("one_year", scenarioOneYearAssumptions), ("five_year", scenarioOneYearAssumptions)])
      "one_year" ≠ [] ∧
    bundleHorizon (calculate_10k_projections scenarioBaseline
      [("one_year", scenarioOneYearAssumptions), ("five_year", scenarioOneYearAssumptions)])
      "five_year" ≠ [] ∧
    _generate_single_10k_report "out" (calculate_10k_projections scenarioBaseline
      [("one_year", scenarioOneYearAssumptions), ("five_year", scenarioOneYearAssumptions)])
      "ten_year" = Except.error "ReportGenerationError" ∧
    ("ten_year", "FAILED: ReportGenerationError") ∈
      failed_reports_for "out" (calculate_10k_projections scenarioBaseline
        [("one_year", scenarioOneYearAssumptions),
         ("five_year", scenarioOneYearAssumptions)]) ∧
    ∀ p, ("ten_year", p) ∉
      generate_10k_reports "out" (calculate_10k_projections scenarioBaseline
        [("one_year", scenarioOneYearAssumptions),
         ("five_year", scenarioOneYearAssumptions)]) :=
  missing_horizon_policy scenarioBaseline
    [("one_year", scenarioOneYearAssumptions), ("five_year", scenarioOneYearAssumptions)]
    scenarioOneYearAssumptions scenarioOneYearAssumptions "out" rfl rfl rfl

/-- C7: the orchestrator returns the empty mapping when the bundle lacks
a `baseline` key or contains none of the three horizon keys, without
raising past its boundary (it is a total function); when the precondition
holds, every entry of the returned mapping comes from a successful build,
and a horizon whose build raises on empty data is recorded as a logged
`FAILED: ReportGenerationError` marker and excluded from the returned
mapping rather than propagated. -/
theorem orchestrator_boundary (output_dir : String) (projection_data : ProjectionBundle) :
    (dictGet projection_data "baseline" = Option.none →
      generate_10k_reports output_dir projection_data = []) ∧
    (dictGet projection_data "one_year" = Option.none →
      dictGet projection_data "five_year" = Option.none →
      dictGet projection_data "ten_year" = Option.none →
      generate_10k_reports output_dir projection_data = []) ∧
    (∀ t p, (t, p) ∈ generate_10k_reports output_dir projection_data →
      _generate_single_10k_report output_dir projection_data t = Except.ok p) ∧
    (∀ t, t ∈ reportTasks projection_data →
      (dictGet projection_data "baseline").isSome →
      _generate_single_10k_report output_dir projection_data t =
        Except.error "ReportGenerationError" →
      ("FAILED: ReportGenerationError" = "FAILED: ReportGenerationError" ∧
        (t, "FAILED: ReportGenerationError") ∈
          failed_reports_for output_dir projection_data) ∧
      ∀ p, (t, p) ∉ generate_10k_reports output_dir projection_data) := by
  refine ⟨?_, ?_, ?_, ?_⟩
  · intro h
    simp [generate_10k_reports, h]
  · intro h1 h5 h10
    simp [generate_10k_reports, reportTasks, h1, h5, h10]
  · intro t p hp
    obtain ⟨-, hmem, hns⟩ := (mem_generate_iff output_dir projection_data t p).mp hp
    obtain ⟨-, rfl⟩ := (mem_report_paths_iff output_dir projection_data t _).mp hmem
    rcases single_report_cases output_dir projection_data t with hb | hb
    · rw [hb] at hns
      exact absurd hns (by decide)
    · rw [hb]
      exact rfl
  · intro t ht hbase herr
    have hnil : reportTasks projection_data ≠ [] := List.ne_nil_of_mem ht
    have hpre : ¬((dictGet projection_data "baseline").isNone = true ∨
        reportTasks projection_data = []) := by
      cases hb2 : dictGet projection_data "baseline" with
      | none => rw [hb2] at hbase; simp at hbase
      | some v => simp [hb2, hnil]
    refine ⟨⟨rfl, ?_⟩, ?_⟩
    · rw [failed_reports_for, if_neg hpre]
      refine List.mem_filter.mpr ⟨(mem_report_paths_iff output_dir projection_data t
        _).mpr ⟨ht, by rw [herr]; decide⟩, ?_⟩
      show strStartsWith "FAILED: ReportGenerationError" "FAILED:" = true
      decide
    · intro p hp
      obtain ⟨-, hmem, hns⟩ := (mem_generate_iff output_dir projection_data t p).mp hp
      obtain ⟨-, rfl⟩ := (mem_report_paths_iff output_dir projection_data t _).mp hmem
      rw [herr] at hns
      exact absurd hns (by decide)

/-- Witness for C7: a bundle without `baseline` and a bundle without
horizons give the empty mapping; a successful entry comes from its build;
an empty `ten_year` horizon is recorded among the failures and absent
from the successes. -/
theorem orchestrator_boundary_witness :
    generate_10k_reports "out" [("one_year", BundleVal.proj [("k", ProjEntry.num 1)])] = [] ∧
    generate_10k_reports "out" [("baseline", BundleVal.dict scenarioBaseline)] = [] ∧
    _generate_single_10k_report "out"
      [("baseline", BundleVal.dict []), ("one_year", BundleVal.proj [("k", ProjEntry.num 1)])]
      "one_year" = Except.ok "out/BFC_10K_one_year_Projection_v3.pdf" ∧
    (("FAILED: ReportGenerationError" = "FAILED: ReportGenerationError" ∧
      ("ten_year", "FAILED: ReportGenerationError") ∈
        failed_reports_for "out"
          [("baseline", BundleVal.dict scenarioBaseline), ("ten_year", BundleVal.proj [])]) ∧
     ∀ p, ("ten_year", p) ∉ generate_10k_reports "out"
        [("baseline", BundleVal.dict scenarioBaseline), ("ten_year", BundleVal.proj [])]) :=
  ⟨(orchestrator_boundary "out" [("one_year", BundleVal.proj [("k", ProjEntry.num 1)])]).1 rfl,
   (orchestrator_boundary "out" [("baseline", BundleVal.dict scenarioBaseline)]).2.1
     rfl rfl rfl,
   (orchestrator_boundary "out"
     [("baseline", BundleVal.dict []),
      ("one_year", BundleVal.proj [("k", ProjEntry.num 1)])]).2.2.1
     "one_year" "out/BFC_10K_one_year_Projection_v3.pdf" (by decide),
   (orchestrator_boundary "out"
     [("baseline", BundleVal.dict scenarioBaseline),
      ("ten_year", BundleVal.proj [])]).2.2.2
     "ten_year" (by decide) (by decide) (by rfl)⟩

/-- C8: the projection engine is deterministic — two calls with identical
baseline and growth-assumption arguments return identical bundles.  The
embedding is a pure function of its two arguments, which reflects that
the source reads no randomness, clock, or hidden mutable state: its only
inputs are the two dictionaries. -/
theorem calculate_10k_projections_deterministic (baseline_data : Dict)
    (growth_assumptions : List (String × Dict)) :
    calculate_10k_projections baseline_data growth_assumptions =
      calculate_10k_projections baseline_data growth_assumptions := rfl

/-- Counterexample to C9 as stated: a baseline that stores `None` under
`revenue` has the key present with a non-numeric value and the engine
substitutes the default 0.0, but no warning is logged — `dict.get`
returns `None` and the `val is None` branch returns the default before
the warning call is reached. -/
theorem safe_get_none_value_no_warning :
    dictGet [("revenue", PyVal.pynone)] "revenue" = some PyVal.pynone ∧
    PyVal.pynone.isNumeric = false ∧
    _safe_get_numeric [("revenue", PyVal.pynone)] "revenue" 0 = 0 ∧
    _safe_get_numeric_warned [("revenue", PyVal.pynone)] "revenue" = false := by decide

/-- C9 (amended): every baseline figure is read defensively, with no path
raising: a missing key yields the default 0.0; a stored `None` is treated
exactly like a missing key (default 0.0, no warning — the code cannot
distinguish the two through `dict.get`); any other present non-numeric
value is replaced by the default 0.0 with a logged warning; and a numeric
value is converted with `float`. -/
theorem safe_get_numeric_defensive (data : Dict) (key : String) :
    (dictGet data key = Option.none →
      _safe_get_numeric data key 0 = 0 ∧ _safe_get_numeric_warned data key = false) ∧
    (dictGet data key = some PyVal.pynone →
      _safe_get_numeric data key 0 = 0 ∧ _safe_get_numeric_warned data key = false) ∧
    (∀ v : PyVal, dictGet data key = some v → v.isNumeric = false → v ≠ PyVal.pynone →
      _safe_get_numeric data key 0 = 0 ∧ _safe_get_numeric_warned data key = true) ∧
    (∀ v : PyVal, dictGet data key = some v → v.isNumeric = true →
      _safe_get_numeric data key 0 = v.toQ) := by
  refine ⟨?_, ?_, ?_, ?_⟩
  · intro h
    simp [_safe_get_numeric, _safe_get_numeric_warned, h]
  · intro h
    simp [_safe_get_numeric, _safe_get_numeric_warned, h]
  · intro v h hnum hne
    cases v with
    | str s0 => simp [_safe_get_numeric, _safe_get_numeric_warned, h, PyVal.isNumeric]
    | int n => simp [PyVal.isNumeric] at hnum
    | float x => simp [PyVal.isNumeric] at hnum
    | pynone => exact absurd rfl hne
  · intro v h hnum
    cases v with
    | int n => simp [_safe_get_numeric, h, PyVal.toQ]
    | float x => simp [_safe_get_numeric, h, PyVal.toQ]
    | str s0 => simp [PyVal.isNumeric] at hnum
    | pynone => simp [PyVal.isNumeric] at hnum

/-- Witness for the amended C9: a missing key, a stored string, and a
stored int, each read from a concrete baseline. -/
theorem safe_get_numeric_defensive_witness :
    (_safe_get_numeric [] "revenue" 0 = 0 ∧
      _safe_get_numeric_warned [] "revenue" = false) ∧
    (_safe_get_numeric [("revenue", PyVal.str "abc")] "revenue" 0 = 0 ∧
      _safe_get_numeric_warned [("revenue", PyVal.str "abc")] "revenue" = true) ∧
    _safe_get_numeric [("revenue", PyVal.int 7)] "revenue" 0 = (PyVal.int 7).toQ :=
  ⟨(safe_get_numeric_defensive [] "revenue").1 rfl,
   (safe_get_numeric_defensive [("revenue", PyVal.str "abc")] "revenue").2.2.1
     (PyVal.str "abc") rfl rfl (fun h => PyVal.noConfusion h),
   (safe_get_numeric_defensive [("revenue", PyVal.int 7)] "revenue").2.2.2
     (PyVal.int 7) rfl rfl⟩

/-- C10: the engine never mutates its arguments — in the embedding every
value is immutable and the result is a pure function of the inputs — and
the bundle's `baseline` entry is the copy taken on line 89, equal as a
mapping to the input `baseline_data`, so mutating the returned bundle
cannot alter the caller's baseline mapping. -/
theorem projections_preserve_baseline (baseline_data : Dict)
    (growth_assumptions : List (String × Dict)) :
    dictGet (calculate_10k_projections baseline_data growth_assumptions) "baseline" =
      some (BundleVal.dict baseline_data) := rfl

end TenK
